import Mathlib

/-!
# Verification of the g-print-designer Design Canvas Engine

Shallow embedding of the core of the design-editor repository:
the `object:moving` clamp handler, the editable-area export pipeline,
the JSON snapshot export/import, and the undo/redo history subsystem,
with theorems settling the specification claims about them.

Scene coordinates, scale factors and resolution multipliers are modelled
as rationals (`ℚ`); the code's JavaScript numbers are used only on exact
decimal values in all the behaviour under verification.
-/

/-- The reserved name of the printable-area marker
(`createEditableAreaOverlay` in `canvasUtils`). -/
def overlayName : String := "editableAreaOverlay"

/-- `EditableArea` from `types.ts`: the printable rectangle in scene units. -/
structure EditableArea where
  left : ℚ
  top : ℚ
  width : ℚ
  height : ℚ
deriving Repr, DecidableEq

/-- A fabric scene object, restricted to the attributes the verified code
reads or writes: the custom `name` property, the object kind, the transform
fields used by the bounding-box computation, and visibility. -/
structure FabObj where
  name : Option String := none
  kind : String := "object"
  left : ℚ := 0
  top : ℚ := 0
  width : ℚ := 0
  height : ℚ := 0
  scaleX : ℚ := 1
  scaleY : ℚ := 1
  visible : Bool := true
deriving Repr, DecidableEq

/-- Scaled bounding-box width, as computed by the `object:moving` handler:
`(obj.width || 0) * (obj.scaleX || 1)` — a zero scale factor falls back to 1
under JavaScript's `||`. -/
def objBoxW (o : FabObj) : ℚ :=
  o.width * (if o.scaleX = 0 then 1 else o.scaleX)

/-- Scaled bounding-box height (`(obj.height || 0) * (obj.scaleY || 1)`). -/
def objBoxH (o : FabObj) : ℚ :=
  o.height * (if o.scaleY = 0 then 1 else o.scaleY)

/-- One axis of the `object:moving` clamp in `DesignEditor.tsx`
(lines 114-125): first push the coordinate up to the area minimum, then,
if the scaled box overflows the maximum, pull it back to `max - size`. -/
def clampAxis (amin asize x w : ℚ) : ℚ :=
  let x1 := if x < amin then amin else x
  if x1 + w > amin + asize then amin + asize - w else x1

/-- The `object:moving` event handler of `DesignEditor.tsx` (strict-clamp
policy): the overlay marker is exempt; every other object has its `left`/`top`
clamped so that the scaled bounding box stays inside the editable area. -/
def objectMovingHandler (A : EditableArea) (o : FabObj) : FabObj :=
  if o.name = some overlayName then o
  else
    { o with
      left := clampAxis A.left A.width o.left (objBoxW o)
      top := clampAxis A.top A.height o.top (objBoxH o) }

/-- A sequence of drag events: each event places the object at a requested
position and the `object:moving` handler immediately clamps it. -/
def applyMoves (A : EditableArea) (o : FabObj) (moves : List (ℚ × ℚ)) : FabObj :=
  moves.foldl (fun acc p => objectMovingHandler A { acc with left := p.1, top := p.2 }) o

/-- What the strict-clamp handler guarantees about an object `r` it has
produced: per axis, containment when the scaled box fits in the area, and a
pin flush to the right (resp. bottom) edge when it does not. -/
def ClampSpec (A : EditableArea) (r : FabObj) : Prop :=
  (objBoxW r ≤ A.width → A.left ≤ r.left ∧ r.left + objBoxW r ≤ A.left + A.width) ∧
  (A.width < objBoxW r → r.left = A.left + A.width - objBoxW r) ∧
  (objBoxH r ≤ A.height → A.top ≤ r.top ∧ r.top + objBoxH r ≤ A.top + A.height) ∧
  (A.height < objBoxH r → r.top = A.top + A.height - objBoxH r)

/-- Distance between two rationals (used only to state the spec's
"nearest edge" reading, not by the code). -/
def qdist (a b : ℚ) : ℚ := if a ≤ b then b - a else a - b

/-- Modelled from the spec's words, for comparison with the code (the code
itself has no such computation): "if the object is already larger than the
area, it is pinned flush to the nearest edge(s)" — of the two flush
positions for an oversized box (`left` edge flush at `A.left`, right edge
flush at `A.left + A.width - w`), pick the one nearest to the current
coordinate. -/
def nearestFlushLeft (A : EditableArea) (w x : ℚ) : ℚ :=
  if qdist x A.left ≤ qdist x (A.left + A.width - w) then A.left
  else A.left + A.width - w

theorem clampAxis_contains {amin asize x w : ℚ} (h : w ≤ asize) :
    amin ≤ clampAxis amin asize x w ∧ clampAxis amin asize x w + w ≤ amin + asize := by
  unfold clampAxis
  dsimp only
  split_ifs <;> constructor <;> linarith

theorem clampAxis_flush {amin asize x w : ℚ} (h : asize < w) :
    clampAxis amin asize x w = amin + asize - w := by
  unfold clampAxis
  dsimp only
  split_ifs with h1 h2 <;> first | rfl | linarith

theorem objectMovingHandler_name (A : EditableArea) (o : FabObj) :
    (objectMovingHandler A o).name = o.name := by
  unfold objectMovingHandler
  split <;> rfl

theorem objectMovingHandler_clamps (A : EditableArea) (o : FabObj)
    (h : ¬ o.name = some overlayName) :
    ClampSpec A (objectMovingHandler A o) := by
  rw [objectMovingHandler, if_neg h]
  refine ⟨fun hw => ?_, fun hw => ?_, fun hh => ?_, fun hh => ?_⟩
  · exact clampAxis_contains hw
  · exact clampAxis_flush hw
  · exact clampAxis_contains hh
  · exact clampAxis_flush hh

/-- C1 (amended): under the strict-clamp policy, after any non-empty sequence
of object-move events on a non-marker object, the handler leaves the object's
scaled bounding box fully contained in the editable area whenever the box is
no larger than the area on that axis; when the box is larger, the object is
pinned flush to the area's right (resp. bottom) edge — always that edge,
regardless of which edge was nearest. -/
theorem strict_clamp_invariant (A : EditableArea) (o : FabObj)
    (moves : List (ℚ × ℚ)) (hm : moves ≠ [])
    (hname : ¬ o.name = some overlayName) :
    ClampSpec A (applyMoves A o moves) := by
  induction moves generalizing o with
  | nil => exact absurd rfl hm
  | cons p rest ih =>
    have hstep : applyMoves A o (p :: rest)
        = applyMoves A (objectMovingHandler A { o with left := p.1, top := p.2 }) rest := rfl
    cases rest with
    | nil =>
      rw [hstep]
      exact objectMovingHandler_clamps A _ hname
    | cons q rest2 =>
      rw [hstep]
      refine ih _ (by simp) ?_
      rw [objectMovingHandler_name]
      exact hname

/-- Witness for `strict_clamp_invariant` at a concrete area, object and
drag sequence. -/
theorem strict_clamp_invariant_witness :
    ([((200 : ℚ), (60 : ℚ))] ≠ ([] : List (ℚ × ℚ)))
      ∧ ¬ (FabObj.mk none "textbox" 0 0 20 20 1 1 true).name = some overlayName
      ∧ ClampSpec ⟨100, 100, 50, 50⟩
          (applyMoves ⟨100, 100, 50, 50⟩ (FabObj.mk none "textbox" 0 0 20 20 1 1 true)
            [((200 : ℚ), (60 : ℚ))]) :=
  ⟨by simp, by simp, strict_clamp_invariant ⟨100, 100, 50, 50⟩ _ _ (by simp) (by simp)⟩

/-- C1 (counterexample to the claim as stated): an object 100 wide inside a
50-wide editable area, sitting at `left = 99` (just 1 unit from the
flush-left position 100 and 49 units from the flush-right position 50), is
moved by the handler to the flush-right position 50, not to the nearest
edge. -/
theorem strict_clamp_nearest_edge_counterexample :
    EditableArea.width ⟨100, 100, 50, 50⟩
        < objBoxW (FabObj.mk none "image" 99 100 100 10 1 1 true)
      ∧ (objectMovingHandler ⟨100, 100, 50, 50⟩
          (FabObj.mk none "image" 99 100 100 10 1 1 true)).left = 50
      ∧ nearestFlushLeft ⟨100, 100, 50, 50⟩
          (objBoxW (FabObj.mk none "image" 99 100 100 10 1 1 true))
          (FabObj.mk none "image" 99 100 100 10 1 1 true).left = 100
      ∧ (objectMovingHandler ⟨100, 100, 50, 50⟩
          (FabObj.mk none "image" 99 100 100 10 1 1 true)).left
        ≠ nearestFlushLeft ⟨100, 100, 50, 50⟩
            (objBoxW (FabObj.mk none "image" 99 100 100 10 1 1 true))
            (FabObj.mk none "image" 99 100 100 10 1 1 true).left := by
  have hobj : objectMovingHandler ⟨100, 100, 50, 50⟩
      (FabObj.mk none "image" 99 100 100 10 1 1 true)
      = FabObj.mk none "image" 50 100 100 10 1 1 true := by
    rw [objectMovingHandler, if_neg (by simp)]
    norm_num [clampAxis, objBoxW, objBoxH, FabObj.mk.injEq]
  refine ⟨?_, ?_, ?_, ?_⟩ <;>
    (try rw [hobj]) <;> norm_num [objBoxW, nearestFlushLeft, qdist]

/-! ## Render surface (fabric canvas) and the export pipeline -/

/-- The fabric canvas, restricted to the state the export pipeline and the
history subsystem read or write: logical dimensions, background image and
color, the object list, and whether a selection is active. -/
structure Canvas where
  width : ℚ := 800
  height : ℚ := 800
  backgroundImage : Option String := none
  backgroundColor : String := "#ffffff"
  objects : List FabObj := []
  activeSelection : Bool := false
deriving Repr, DecidableEq

/-- `overlay ? overlay.visible : true` — the visibility of the first object
named `editableAreaOverlay`, defaulting to `true` when none exists
(`canvas.getObjects().find(...)` finds the first match). -/
def findOverlayVisible : List FabObj → Bool
  | [] => true
  | o :: rest => if o.name = some overlayName then o.visible else findOverlayVisible rest

/-- `if (overlay) overlay.visible = v` — set the visibility of the first
object named `editableAreaOverlay`, if any. -/
def setOverlayVisible : List FabObj → Bool → List FabObj
  | [], _ => []
  | o :: rest, v =>
    if o.name = some overlayName then { o with visible := v } :: rest
    else o :: setOverlayVisible rest v

theorem setOverlayVisible_restore (os : List FabObj) :
    setOverlayVisible (setOverlayVisible os false) (findOverlayVisible os) = os := by
  induction os with
  | nil => rfl
  | cons o rest ih =>
    obtain ⟨n, k, l, t, wd, ht, sx, sy, v⟩ := o
    by_cases h : n = some overlayName
    · subst h
      simp [setOverlayVisible, findOverlayVisible]
    · simp [setOverlayVisible, findOverlayVisible, h, ih]

/-- The raster produced by `canvas.toDataURL({multiplier, left, top, width,
height})` (fabric semantics): the crop rectangle of the scene it depicts,
at the given resolution multiplier. `scene` is the canvas state at
rasterization time. -/
structure Raster where
  scene : Canvas
  cropLeft : ℚ
  cropTop : ℚ
  cropWidth : ℚ
  cropHeight : ℚ
  multiplier : ℚ
deriving Repr, DecidableEq

/-- Output pixel width of a raster: crop width times the multiplier. -/
def Raster.pixelWidth (r : Raster) : ℚ := r.cropWidth * r.multiplier

/-- Output pixel height of a raster: crop height times the multiplier. -/
def Raster.pixelHeight (r : Raster) : ℚ := r.cropHeight * r.multiplier

/-- `canvas.toDataURL` with an explicit crop rectangle and multiplier. -/
def Canvas.toDataURL (c : Canvas) (mult l t w h : ℚ) : Raster :=
  { scene := c, cropLeft := l, cropTop := t, cropWidth := w, cropHeight := h,
    multiplier := mult }

/-- `exportEditableAreaAsPNG` (canvasUtils): deselect, save background image,
background color and overlay visibility, hide all three, rasterize the
editable-area crop at the requested multiplier, and restore the saved state
whether or not encoding succeeds (`finally`). `encodeOk` models whether
`toDataURL` (the encoding step inside the `try`) succeeds. -/
def exportEditableAreaAsPNG (c : Canvas) (area : EditableArea) (resolution : ℚ)
    (encodeOk : Bool) : Canvas × Except String Raster :=
  let c0 := { c with activeSelection := false }
  let originalBg := c0.backgroundImage
  let originalBgColor := c0.backgroundColor
  let originalOverlayVisible := findOverlayVisible c0.objects
  let c1 := { c0 with backgroundImage := none, backgroundColor := "transparent",
                      objects := setOverlayVisible c0.objects false }
  let result : Except String Raster :=
    if encodeOk then
      Except.ok (c1.toDataURL resolution area.left area.top area.width area.height)
    else Except.error "encoding failed"
  let c2 := { c1 with backgroundImage := originalBg, backgroundColor := originalBgColor,
                      objects := setOverlayVisible c1.objects originalOverlayVisible }
  (c2, result)

/-- `exportEditableAreaWithBackgroundAsPNG`: same crop, but only the overlay
is hidden; the background stays. -/
def exportEditableAreaWithBackgroundAsPNG (c : Canvas) (area : EditableArea)
    (resolution : ℚ) (encodeOk : Bool) : Canvas × Except String Raster :=
  let c0 := { c with activeSelection := false }
  let originalOverlayVisible := findOverlayVisible c0.objects
  let c1 := { c0 with objects := setOverlayVisible c0.objects false }
  let result : Except String Raster :=
    if encodeOk then
      Except.ok (c1.toDataURL resolution area.left area.top area.width area.height)
    else Except.error "encoding failed"
  let c2 := { c1 with objects := setOverlayVisible c1.objects originalOverlayVisible }
  (c2, result)

/-- A blob re-tagged with a media type (the TIFF export re-wraps the PNG
raster bytes in a blob typed `image/tiff`). -/
structure TaggedBlob where
  data : Raster
  mediaType : String
deriving Repr, DecidableEq

/-- `exportEditableAreaAsTIFF`: identical raster to the PNG export,
re-tagged `image/tiff`. -/
def exportEditableAreaAsTIFF (c : Canvas) (area : EditableArea) (resolution : ℚ)
    (encodeOk : Bool) : Canvas × Except String TaggedBlob :=
  let r := exportEditableAreaAsPNG c area resolution encodeOk
  (r.1, r.2.map fun raster => { data := raster, mediaType := "image/tiff" })

/-- `exportEditableAreaWithBackgroundAsTIFF`. -/
def exportEditableAreaWithBackgroundAsTIFF (c : Canvas) (area : EditableArea)
    (resolution : ℚ) (encodeOk : Bool) : Canvas × Except String TaggedBlob :=
  let r := exportEditableAreaWithBackgroundAsPNG c area resolution encodeOk
  (r.1, r.2.map fun raster => { data := raster, mediaType := "image/tiff" })

/-- The jsPDF document built by the PDF exports: one page sized exactly
`width x height` logical units, landscape iff `width > height`, with the
rasterized PNG drawn at the origin at the page's logical size. -/
structure PdfDoc where
  landscape : Bool
  pageWidth : ℚ
  pageHeight : ℚ
  image : Raster
  drawWidth : ℚ
  drawHeight : ℚ
deriving Repr, DecidableEq

/-- `exportEditableAreaAsPDF`: rasterize the crop (background and overlay
hidden), then embed it in a single-page PDF sized `area.width x area.height`. -/
def exportEditableAreaAsPDF (c : Canvas) (area : EditableArea) (resolution : ℚ)
    (encodeOk : Bool) : Canvas × Except String PdfDoc :=
  let r := exportEditableAreaAsPNG c area resolution encodeOk
  (r.1, r.2.map fun raster =>
    { landscape := decide (area.width > area.height),
      pageWidth := area.width, pageHeight := area.height,
      image := raster, drawWidth := area.width, drawHeight := area.height })

/-- `exportEditableAreaWithBackgroundAsPDF`. -/
def exportEditableAreaWithBackgroundAsPDF (c : Canvas) (area : EditableArea)
    (resolution : ℚ) (encodeOk : Bool) : Canvas × Except String PdfDoc :=
  let r := exportEditableAreaWithBackgroundAsPNG c area resolution encodeOk
  (r.1, r.2.map fun raster =>
    { landscape := decide (area.width > area.height),
      pageWidth := area.width, pageHeight := area.height,
      image := raster, drawWidth := area.width, drawHeight := area.height })

/-- The SVG document built by `canvas.toSVG(options)`: a view-box equal to
the crop rectangle, width/height attributes equal to the area size. -/
structure SvgDoc where
  scene : Canvas
  viewBoxX : ℚ
  viewBoxY : ℚ
  viewBoxW : ℚ
  viewBoxH : ℚ
  widthAttr : ℚ
  heightAttr : ℚ
deriving Repr, DecidableEq

/-- `exportEditableAreaAsSVG`: hide background and overlay, serialize the
crop as SVG with the editable-area view-box, restore in `finally`. -/
def exportEditableAreaAsSVG (c : Canvas) (area : EditableArea)
    (encodeOk : Bool) : Canvas × Except String SvgDoc :=
  let c0 := { c with activeSelection := false }
  let originalBg := c0.backgroundImage
  let originalBgColor := c0.backgroundColor
  let originalOverlayVisible := findOverlayVisible c0.objects
  let c1 := { c0 with backgroundImage := none, backgroundColor := "transparent",
                      objects := setOverlayVisible c0.objects false }
  let result : Except String SvgDoc :=
    if encodeOk then
      Except.ok { scene := c1, viewBoxX := area.left, viewBoxY := area.top,
                  viewBoxW := area.width, viewBoxH := area.height,
                  widthAttr := area.width, heightAttr := area.height }
    else Except.error "encoding failed"
  let c2 := { c1 with backgroundImage := originalBg, backgroundColor := originalBgColor,
                      objects := setOverlayVisible c1.objects originalOverlayVisible }
  (c2, result)

/-- `exportEditableAreaWithBackgroundAsSVG`: same as the plain SVG export
except only the overlay is hidden (the documented background limitation). -/
def exportEditableAreaWithBackgroundAsSVG (c : Canvas) (area : EditableArea)
    (encodeOk : Bool) : Canvas × Except String SvgDoc :=
  let c0 := { c with activeSelection := false }
  let originalOverlayVisible := findOverlayVisible c0.objects
  let c1 := { c0 with objects := setOverlayVisible c0.objects false }
  let result : Except String SvgDoc :=
    if encodeOk then
      Except.ok { scene := c1, viewBoxX := area.left, viewBoxY := area.top,
                  viewBoxW := area.width, viewBoxH := area.height,
                  widthAttr := area.width, heightAttr := area.height }
    else Except.error "encoding failed"
  let c2 := { c1 with objects := setOverlayVisible c1.objects originalOverlayVisible }
  (c2, result)

/-- `exportEditableAreaAsHighResPNG`: converts the requested DPI to a
resolution multiplier via `dpi / 96` and delegates to the PNG export. -/
def exportEditableAreaAsHighResPNG (c : Canvas) (area : EditableArea) (dpi : ℚ)
    (encodeOk : Bool) : Canvas × Except String Raster :=
  exportEditableAreaAsPNG c area (dpi / 96) encodeOk

/-- `exportEditableAreaTransparent`: alias of the PNG export (which already
hides the background and uses a transparent fill). -/
def exportEditableAreaTransparent (c : Canvas) (area : EditableArea) (resolution : ℚ)
    (encodeOk : Bool) : Canvas × Except String Raster :=
  exportEditableAreaAsPNG c area resolution encodeOk

/-- C2: the editable-area export rasterizes exactly the sub-region
`[left, top, left+width, top+height]` of the scene, the output pixel
dimensions are `width*multiplier x height*multiplier`, and neither depends
on the full canvas size; e.g. area `{10,10,100,50}` at multiplier 2 gives
exactly 200x100 pixels. -/
theorem export_crop_correct (c : Canvas) (area : EditableArea) (res : ℚ) :
    ((exportEditableAreaAsPNG c area res true).2.map
        (fun r => (r.pixelWidth, r.pixelHeight))
      = Except.ok (area.width * res, area.height * res))
    ∧ ((exportEditableAreaAsPNG c area res true).2.map
        (fun r => (r.cropLeft, r.cropTop, r.cropLeft + r.cropWidth, r.cropTop + r.cropHeight))
      = Except.ok (area.left, area.top, area.left + area.width, area.top + area.height))
    ∧ (∀ w h : ℚ,
        (exportEditableAreaAsPNG { c with width := w, height := h } area res true).2.map
            (fun r => (r.pixelWidth, r.pixelHeight, r.cropLeft, r.cropTop, r.cropWidth,
              r.cropHeight))
          = (exportEditableAreaAsPNG c area res true).2.map
            (fun r => (r.pixelWidth, r.pixelHeight, r.cropLeft, r.cropTop, r.cropWidth,
              r.cropHeight)))
    ∧ ((exportEditableAreaAsPNG c ⟨10, 10, 100, 50⟩ 2 true).2.map
        (fun r => (r.pixelWidth, r.pixelHeight)) = Except.ok (200, 100)) := by
  refine ⟨rfl, rfl, fun w h => rfl, ?_⟩
  show Except.ok (((100 : ℚ) * 2, (50 : ℚ) * 2)) = Except.ok ((200 : ℚ), (100 : ℚ))
  norm_num

/-- The canvas rendering state the export pipeline must leave untouched:
background image, background color, and the object list (hence the marker's
visibility). -/
def preservesRender (c c' : Canvas) : Prop :=
  c'.backgroundImage = c.backgroundImage
    ∧ c'.backgroundColor = c.backgroundColor
    ∧ c'.objects = c.objects

/-- C6: every editable-area export (PNG, TIFF, PDF, SVG, high-res PNG,
transparent PNG; with or without background), on both the success and the
encoding-failure path, restores the background image, background color and
marker visibility to their pre-call values and leaves the object list
unaltered. -/
theorem export_restores_state (c : Canvas) (area : EditableArea) (res : ℚ) (ok : Bool) :
    preservesRender c (exportEditableAreaAsPNG c area res ok).1
    ∧ preservesRender c (exportEditableAreaWithBackgroundAsPNG c area res ok).1
    ∧ preservesRender c (exportEditableAreaAsTIFF c area res ok).1
    ∧ preservesRender c (exportEditableAreaWithBackgroundAsTIFF c area res ok).1
    ∧ preservesRender c (exportEditableAreaAsPDF c area res ok).1
    ∧ preservesRender c (exportEditableAreaWithBackgroundAsPDF c area res ok).1
    ∧ preservesRender c (exportEditableAreaAsSVG c area ok).1
    ∧ preservesRender c (exportEditableAreaWithBackgroundAsSVG c area ok).1
    ∧ preservesRender c (exportEditableAreaAsHighResPNG c area res ok).1
    ∧ preservesRender c (exportEditableAreaTransparent c area res ok).1 := by
  have hpng : preservesRender c (exportEditableAreaAsPNG c area res ok).1 := by
    refine ⟨rfl, rfl, ?_⟩
    show setOverlayVisible (setOverlayVisible c.objects false) (findOverlayVisible c.objects)
      = c.objects
    exact setOverlayVisible_restore c.objects
  have hbgpng : preservesRender c (exportEditableAreaWithBackgroundAsPNG c area res ok).1 := by
    refine ⟨rfl, rfl, ?_⟩
    show setOverlayVisible (setOverlayVisible c.objects false) (findOverlayVisible c.objects)
      = c.objects
    exact setOverlayVisible_restore c.objects
  have hsvg : preservesRender c (exportEditableAreaAsSVG c area ok).1 := by
    refine ⟨rfl, rfl, ?_⟩
    show setOverlayVisible (setOverlayVisible c.objects false) (findOverlayVisible c.objects)
      = c.objects
    exact setOverlayVisible_restore c.objects
  have hbgsvg : preservesRender c (exportEditableAreaWithBackgroundAsSVG c area ok).1 := by
    refine ⟨rfl, rfl, ?_⟩
    show setOverlayVisible (setOverlayVisible c.objects false) (findOverlayVisible c.objects)
      = c.objects
    exact setOverlayVisible_restore c.objects
  exact ⟨hpng, hbgpng, hpng, hbgpng, hpng, hbgpng, hsvg, hbgsvg, hpng, hpng⟩

/-! ## Document snapshot: exportCanvasToJSON / importCanvasFromJSON -/

/-- Serialization of one object by `object.toObject(propertiesToInclude)`
(fabric semantics): the standard attributes are always emitted; a custom
property such as `name` is emitted only when listed in
`propertiesToInclude`. -/
def serializeObj (props : List String) (o : FabObj) : FabObj :=
  if props.contains "name" then o else { o with name := none }

/-- The JSON document produced by `canvas.toJSON(propertiesToInclude)`:
background image reference plus the serialized object list. -/
structure CanvasJson where
  backgroundImage : Option String
  objects : List FabObj
deriving Repr, DecidableEq

/-- `canvas.toJSON(propertiesToInclude)`. -/
def canvasToJSON (props : List String) (c : Canvas) : CanvasJson :=
  { backgroundImage := c.backgroundImage, objects := c.objects.map (serializeObj props) }

/-- `exportCanvasToJSON` as it stands in the current `canvasUtils`
(`canvas.toJSON()` with no `propertiesToInclude`, then delete
`backgroundImage`, then filter out objects named `editableAreaOverlay`). -/
def exportCanvasToJSON (c : Canvas) : CanvasJson :=
  let json := canvasToJSON [] c
  let json := { json with backgroundImage := none }
  { json with objects := json.objects.filter (fun o => !(o.name == some overlayName)) }

/-- The earlier `exportCanvasToJSON` variant (part_002 of the repository),
which passes `['name']` to `toJSON` precisely so the overlay can be
identified and filtered out. -/
def exportCanvasToJSONWithName (c : Canvas) : CanvasJson :=
  let json := canvasToJSON ["name"] c
  let json := { json with backgroundImage := none }
  { json with objects := json.objects.filter (fun o => !(o.name == some overlayName)) }

/-- C5 (code bug, evaluated at the failing input): a canvas holding exactly
the printable-area marker and a background image. The current
`exportCanvasToJSON` serializes objects without their `name`, so its
marker filter matches nothing and the marker rect survives into the
snapshot (with `name` stripped); the background is removed. The earlier
variant that passes `['name']` excludes the marker as the spec demands. -/
theorem exportCanvasToJSON_marker_leak :
    (exportCanvasToJSON
        { backgroundImage := some "white-tshirt.png",
          objects := [FabObj.mk (some overlayName) "rect" 200 200 200 250 1 1 true] }).objects
      = [FabObj.mk none "rect" 200 200 200 250 1 1 true]
    ∧ (exportCanvasToJSON
        { backgroundImage := some "white-tshirt.png",
          objects := [FabObj.mk (some overlayName) "rect" 200 200 200 250 1 1 true] }).backgroundImage
      = none
    ∧ (exportCanvasToJSONWithName
        { backgroundImage := some "white-tshirt.png",
          objects := [FabObj.mk (some overlayName) "rect" 200 200 200 250 1 1 true] }).objects
      = []
    ∧ (∀ c : Canvas,
        (exportCanvasToJSONWithName c).objects.all
            (fun o => !(o.name == some overlayName)) = true
          ∧ (exportCanvasToJSONWithName c).backgroundImage = none) := by
  refine ⟨rfl, rfl, rfl, fun c => ⟨?_, rfl⟩⟩
  simp only [exportCanvasToJSONWithName, canvasToJSON, serializeObj]
  exact List.all_eq_true.mpr fun o ho => (List.mem_filter.mp ho).2

/-- A parsed JSON value (the result of a successful `JSON.parse`). -/
inductive Json where
  | null : Json
  | bool (b : Bool) : Json
  | num (q : ℚ) : Json
  | str (s : String) : Json
  | arr (xs : List Json) : Json
  | obj (fields : List (String × Json)) : Json

/-- JavaScript truthiness of a JSON value. -/
def truthy : Json → Bool
  | Json.null => false
  | Json.bool b => b
  | Json.num q => !(q == 0)
  | Json.str s => !(s == "")
  | Json.arr _ => true
  | Json.obj _ => true

/-- First binding of a key in an object's field list (JSON object keys are
unique, so first-match lookup is exact). -/
def lookupField : List (String × Json) → String → Option Json
  | [], _ => none
  | (k, v) :: rest, key => if k == key then some v else lookupField rest key

/-- JavaScript member access `value.key`: throws a `TypeError` on `null`,
yields the field (or `undefined`, modelled `none`) otherwise. -/
def jsMember : Json → String → Except String (Option Json)
  | Json.null, _ => Except.error "TypeError: Cannot read properties of null"
  | Json.obj fields, key => Except.ok (lookupField fields key)
  | _, _ => Except.ok none

/-- The guard `!json.objects || !Array.isArray(json.objects)` of
`importCanvasFromJSON`, on the (already accessed) member value: passes —
yielding the element list — exactly when the value is present, truthy and
an array. -/
def truthyArray : Option Json → Option (List Json)
  | some v => if truthy v then (match v with | Json.arr xs => some xs | _ => none) else none
  | none => none

/-- `importCanvasFromJSON` (canvasUtils): parse (`parsed = none` models a
`JSON.parse` throw), silently return when the `objects` member is missing or
not an array, otherwise enliven the entries (`enliven` stands for
`fabric.util.enlivenObjects`, which rejects — `Except.error` — on corrupt
entries), and only then replace every non-overlay object on the canvas with
the enlivened non-overlay objects. Errors are logged and re-thrown; the
canvas is not touched on any error path. -/
def importCanvasFromJSON (enliven : List Json → Except String (List FabObj))
    (c : Canvas) (parsed : Option Json) : Canvas × Except String Unit :=
  match parsed with
  | none => (c, Except.error "SyntaxError: Unexpected token in JSON")
  | some json =>
    match jsMember json "objects" with
    | Except.error e => (c, Except.error e)
    | Except.ok objectsVal =>
      match truthyArray objectsVal with
      | none => (c, Except.ok ())
      | some entries =>
        match enliven entries with
        | Except.error e => (c, Except.error e)
        | Except.ok enlivened =>
          let kept := c.objects.filter (fun o => o.name == some overlayName)
          let added := enlivened.filter (fun o => !(o.name == some overlayName))
          ({ c with objects := kept ++ added }, Except.ok ())

/-- C10 (amended): whenever `JSON.parse` succeeds and member access on the
parsed value succeeds (`jsMember` returns `ok`, i.e. the value is not
`null`) but the `objects` member is missing, falsy, or not an array,
`importCanvasFromJSON` resolves successfully and leaves the canvas — its
objects in particular — completely unchanged. -/
theorem import_noop_on_missing_objects
    (enliven : List Json → Except String (List FabObj)) (c : Canvas) (json : Json)
    (v : Option Json) (hv : jsMember json "objects" = Except.ok v)
    (harr : truthyArray v = none) :
    importCanvasFromJSON enliven c (some json) = (c, Except.ok ()) := by
  simp only [importCanvasFromJSON, hv, harr]

/-- Witness for `import_noop_on_missing_objects`: a parsed document
`{"objects": 7}` (member present but not an array) imports as a silent
no-op. -/
theorem import_noop_on_missing_objects_witness :
    jsMember (Json.obj [("objects", Json.num 7)]) "objects" = Except.ok (some (Json.num 7))
    ∧ truthyArray (some (Json.num 7)) = none
    ∧ importCanvasFromJSON (fun _ => Except.ok []) { objects := [] }
        (some (Json.obj [("objects", Json.num 7)]))
      = ({ objects := [] }, Except.ok ()) :=
  ⟨rfl, rfl, import_noop_on_missing_objects _ _ _ _ rfl rfl⟩

/-- C10 (counterexample to the claim as stated): the input string `"null"`
parses as JSON, its parsed value has no `objects` field, yet
`importCanvasFromJSON` does not resolve as a silent no-op: the member
access `json.objects` throws a `TypeError`, which the `catch` re-throws, so
the promise rejects (the scene is still left unchanged). -/
theorem import_null_rejects :
    importCanvasFromJSON (fun _ => Except.ok []) { objects := [] } (some Json.null)
      = ({ objects := [] }, Except.error "TypeError: Cannot read properties of null")
    ∧ (importCanvasFromJSON (fun _ => Except.ok []) { objects := [] } (some Json.null)).2
      ≠ Except.ok () := by
  have he : importCanvasFromJSON (fun _ => Except.ok []) { objects := [] } (some Json.null)
      = ({ objects := [] }, Except.error "TypeError: Cannot read properties of null") := rfl
  refine ⟨he, ?_⟩
  rw [he]
  simp

/-! ## History subsystem: saveHistory / handleUndo / handleRedo -/

/-- What one history snapshot records (`JSON.stringify(canvas.toJSON(['id',
'name', 'selectable', 'evented']))`) and what `canvas.loadFromJSON` puts
back: background image, background color and the full object list. A
snapshot that fails `JSON.parse`/reconstruction is modelled as `none`. -/
structure CanvasContent where
  backgroundImage : Option String
  backgroundColor : String
  objects : List FabObj
deriving Repr, DecidableEq

/-- The content a `saveHistory` snapshot captures from the canvas. -/
def Canvas.content (c : Canvas) : CanvasContent :=
  { backgroundImage := c.backgroundImage, backgroundColor := c.backgroundColor,
    objects := c.objects }

/-- `canvas.loadFromJSON`: replace the canvas content with a snapshot's. -/
def Canvas.loadContent (c : Canvas) (k : CanvasContent) : Canvas :=
  { c with backgroundImage := k.backgroundImage, backgroundColor := k.backgroundColor,
           objects := k.objects }

/-- The history state of `DesignEditor.tsx`: the canvas, the snapshot list,
the cursor (`historyIndex`, `-1` before the baseline save) and the
`isHistoryProcessing` replay guard. -/
structure HistState where
  canvas : Canvas
  history : List (Option CanvasContent)
  historyIndex : Int
  isHistoryProcessing : Bool
deriving Repr, DecidableEq

/-- `saveHistory`: no-op while a restore is in flight; otherwise truncate
the history to `[0, historyIndex]` (`prev.slice(0, historyIndex + 1)`),
append the current snapshot, and advance the cursor. -/
def saveHistory (s : HistState) : HistState :=
  if s.isHistoryProcessing then s
  else
    { s with
      history := s.history.take (s.historyIndex + 1).toNat ++ [some s.canvas.content],
      historyIndex := s.historyIndex + 1 }

/-- `handleUndo`: no-op when the cursor is at 0 (or the history empty);
otherwise set the replay guard, look up the previous snapshot, and — when it
is present and reconstructs — load it, let the `loadEvents` mutation events
it raises hit `saveHistory` (suppressed by the guard), move the cursor back
and clear the guard. A missing entry (`!json`) logs and returns; a corrupt
entry makes `JSON.parse` throw, which propagates after the `finally` clears
the guard. -/
def handleUndo (loadEvents : Nat) (s : HistState) : HistState × Except String Unit :=
  if s.historyIndex ≤ 0 then (s, Except.ok ())
  else
    match s.history[(s.historyIndex - 1).toNat]? with
    | none => ({ s with isHistoryProcessing := false }, Except.ok ())
    | some none =>
      ({ s with isHistoryProcessing := false },
        Except.error "SyntaxError: JSON.parse failed")
    | some (some k) =>
      let s2 := saveHistory^[loadEvents]
        { s with isHistoryProcessing := true, canvas := s.canvas.loadContent k }
      ({ s2 with historyIndex := s.historyIndex - 1, isHistoryProcessing := false },
        Except.ok ())

/-- `handleRedo`: symmetric to `handleUndo`; no-op when the cursor is at the
last index (`historyIndex >= history.length - 1`). -/
def handleRedo (loadEvents : Nat) (s : HistState) : HistState × Except String Unit :=
  if (s.history.length : Int) - 1 ≤ s.historyIndex then (s, Except.ok ())
  else
    match s.history[(s.historyIndex + 1).toNat]? with
    | none => ({ s with isHistoryProcessing := false }, Except.ok ())
    | some none =>
      ({ s with isHistoryProcessing := false },
        Except.error "SyntaxError: JSON.parse failed")
    | some (some k) =>
      let s2 := saveHistory^[loadEvents]
        { s with isHistoryProcessing := true, canvas := s.canvas.loadContent k }
      ({ s2 with historyIndex := s.historyIndex + 1, isHistoryProcessing := false },
        Except.ok ())

/-- A sequence of committed mutations: each one changes the canvas content
and fires an object event, which commits a snapshot via `saveHistory`. -/
def applyMutations (cs : List CanvasContent) (s : HistState) : HistState :=
  cs.foldl (fun st k => saveHistory { st with canvas := st.canvas.loadContent k }) s

/-- The cursor invariant of the history list: the cursor stays in
`[-1, length)`, and is non-negative as soon as one entry exists. -/
def HistInv (s : HistState) : Prop :=
  -1 ≤ s.historyIndex ∧ s.historyIndex < (s.history.length : Int)
    ∧ (0 < s.history.length → 0 ≤ s.historyIndex)

theorem saveHistory_of_processing {s : HistState}
    (h : s.isHistoryProcessing = true) : saveHistory s = s := by
  unfold saveHistory
  rw [if_pos h]

theorem saveHistory_iterate_of_processing {s : HistState}
    (h : s.isHistoryProcessing = true) (n : Nat) : saveHistory^[n] s = s := by
  induction n with
  | zero => rfl
  | succ m ih => rw [Function.iterate_succ_apply, saveHistory_of_processing h, ih]

theorem saveHistory_not_processing {s : HistState} (h : s.isHistoryProcessing = false) :
    saveHistory s
      = { s with
          history := s.history.take (s.historyIndex + 1).toNat ++ [some s.canvas.content],
          historyIndex := s.historyIndex + 1 } := by
  unfold saveHistory
  rw [if_neg (by simp [h])]

/-- C9: a snapshot restore never commits history entries: however many
object-added/removed/modified events the restore raises (`loadEvents`),
`handleUndo` and `handleRedo` leave the history list unchanged, because
`saveHistory` is the identity whenever the `isHistoryProcessing` replay
guard is set. -/
theorem replay_guard_suppresses_capture (n : Nat) (s : HistState) :
    (handleUndo n s).1.history = s.history
    ∧ (handleRedo n s).1.history = s.history
    ∧ saveHistory { s with isHistoryProcessing := true }
      = { s with isHistoryProcessing := true } := by
  refine ⟨?_, ?_, saveHistory_of_processing rfl⟩
  · unfold handleUndo
    split
    · rfl
    · split
      · rfl
      · rfl
      · rw [saveHistory_iterate_of_processing rfl]
  · unfold handleRedo
    split
    · rfl
    · split
      · rfl
      · rfl
      · rw [saveHistory_iterate_of_processing rfl]

theorem histInv_saveHistory {s : HistState} (h : HistInv s) : HistInv (saveHistory s) := by
  obtain ⟨h1, h2, h3⟩ := h
  unfold saveHistory
  split
  · exact ⟨h1, h2, h3⟩
  · refine ⟨?_, ?_, ?_⟩ <;> simp [List.length_take] <;> omega

theorem histInv_handleUndo {s : HistState} (h : HistInv s) (n : Nat) :
    HistInv (handleUndo n s).1 := by
  obtain ⟨h1, h2, h3⟩ := h
  unfold handleUndo
  split
  · exact ⟨h1, h2, h3⟩
  · rename_i hidx
    split
    · exact ⟨h1, h2, h3⟩
    · exact ⟨h1, h2, h3⟩
    · rw [saveHistory_iterate_of_processing rfl]
      refine ⟨?_, ?_, ?_⟩ <;> simp <;> omega

theorem histInv_handleRedo {s : HistState} (h : HistInv s) (n : Nat) :
    HistInv (handleRedo n s).1 := by
  obtain ⟨h1, h2, h3⟩ := h
  unfold handleRedo
  split
  · exact ⟨h1, h2, h3⟩
  · rename_i hidx
    split
    · exact ⟨h1, h2, h3⟩
    · exact ⟨h1, h2, h3⟩
    · rw [saveHistory_iterate_of_processing rfl]
      refine ⟨?_, ?_, ?_⟩ <;> simp <;> omega

theorem applyMutations_depth (cs : List CanvasContent) (s : HistState)
    (hflag : s.isHistoryProcessing = false) (hidx : 0 ≤ s.historyIndex)
    (hlen : (s.history.length : Int) = s.historyIndex + 1) :
    (applyMutations cs s).history.length = s.history.length + cs.length
    ∧ (applyMutations cs s).historyIndex = s.historyIndex + cs.length
    ∧ (applyMutations cs s).isHistoryProcessing = false := by
  induction cs generalizing s with
  | nil => exact ⟨by simp [applyMutations], by simp [applyMutations], hflag⟩
  | cons k rest ih =>
    have hstep : applyMutations (k :: rest) s
        = applyMutations rest (saveHistory { s with canvas := s.canvas.loadContent k }) := rfl
    have hsv := saveHistory_not_processing
      (s := { s with canvas := s.canvas.loadContent k }) hflag
    have htake : (s.historyIndex + 1).toNat = s.history.length := by omega
    obtain ⟨ih1, ih2, ih3⟩ := ih (saveHistory { s with canvas := s.canvas.loadContent k })
      (by rw [hsv]; exact hflag) (by rw [hsv]; simp; omega)
      (by rw [hsv]; simp [List.length_take]; omega)
    rw [hstep]
    refine ⟨?_, ?_, ih3⟩
    · rw [ih1, hsv]
      simp [List.length_take]
      omega
    · rw [ih2, hsv]
      simp
      omega

/-- C3: (i) the cursor invariant — cursor in `[0, length-1]` once an entry
exists — is preserved by `saveHistory`, `handleUndo` and `handleRedo`;
(ii) committing a mutation first discards every entry strictly after the
cursor and then appends the new snapshot; (iii) starting from the baseline
save on an empty history, `N` committed mutations leave `length = N + 1`
(baseline included) and `cursor = N`. -/
theorem history_invariant (s : HistState) (n : Nat) (cs : List CanvasContent) (c0 : Canvas) :
    (HistInv s → HistInv (saveHistory s) ∧ HistInv (handleUndo n s).1
      ∧ HistInv (handleRedo n s).1)
    ∧ (s.isHistoryProcessing = false →
        (saveHistory s).history
          = s.history.take (s.historyIndex + 1).toNat ++ [some s.canvas.content]
        ∧ (saveHistory s).historyIndex = s.historyIndex + 1)
    ∧ (applyMutations cs (saveHistory ⟨c0, [], -1, false⟩)).history.length = cs.length + 1
    ∧ (applyMutations cs (saveHistory ⟨c0, [], -1, false⟩)).historyIndex = (cs.length : Int) := by
  have hbase : saveHistory ⟨c0, [], -1, false⟩
      = (⟨c0, [some c0.content], 0, false⟩ : HistState) := by
    rw [saveHistory_not_processing rfl]
    rfl
  have hdepth := applyMutations_depth cs (saveHistory ⟨c0, [], -1, false⟩)
    (by rw [hbase]) (by rw [hbase]) (by rw [hbase]; rfl)
  refine ⟨fun h => ⟨histInv_saveHistory h, histInv_handleUndo h n, histInv_handleRedo h n⟩,
    fun hflag => ?_, ?_, ?_⟩
  · rw [saveHistory_not_processing hflag]
    exact ⟨rfl, rfl⟩
  · rw [hdepth.1, hbase]
    simp [Nat.add_comm]
  · rw [hdepth.2.1, hbase]
    simp

/-- Witness for `history_invariant`: a concrete two-entry history with the
cursor at 1, two mutations committed after the baseline. -/
theorem history_invariant_witness :
    HistInv ⟨{ objects := [] }, [some ⟨none, "#ffffff", []⟩, some ⟨none, "#ffffff", []⟩], 1, false⟩
    ∧ (HistInv (saveHistory ⟨{ objects := [] },
          [some ⟨none, "#ffffff", []⟩, some ⟨none, "#ffffff", []⟩], 1, false⟩)
        ∧ HistInv ((handleUndo 2 ⟨{ objects := [] },
            [some ⟨none, "#ffffff", []⟩, some ⟨none, "#ffffff", []⟩], 1, false⟩)).1
        ∧ HistInv ((handleRedo 2 ⟨{ objects := [] },
            [some ⟨none, "#ffffff", []⟩, some ⟨none, "#ffffff", []⟩], 1, false⟩)).1)
    ∧ ((saveHistory ⟨{ objects := [] },
          [some ⟨none, "#ffffff", []⟩, some ⟨none, "#ffffff", []⟩], 1, false⟩).history
        = (HistState.history ⟨{ objects := [] },
            [some ⟨none, "#ffffff", []⟩, some ⟨none, "#ffffff", []⟩], 1, false⟩).take
              ((1 : Int) + 1).toNat
            ++ [some (Canvas.content { objects := [] })]
        ∧ (saveHistory ⟨{ objects := [] },
            [some ⟨none, "#ffffff", []⟩, some ⟨none, "#ffffff", []⟩], 1, false⟩).historyIndex
          = 1 + 1)
    ∧ (applyMutations [⟨none, "#111111", []⟩, ⟨none, "#222222", []⟩]
          (saveHistory ⟨{ objects := [] }, [], -1, false⟩)).history.length = 3
    ∧ (applyMutations [⟨none, "#111111", []⟩, ⟨none, "#222222", []⟩]
          (saveHistory ⟨{ objects := [] }, [], -1, false⟩)).historyIndex = 2 := by
  have hinv : HistInv ⟨{ objects := [] },
      [some ⟨none, "#ffffff", []⟩, some ⟨none, "#ffffff", []⟩], 1, false⟩ := by
    refine ⟨by norm_num, by norm_num, by norm_num⟩
  have h := history_invariant
    ⟨{ objects := [] }, [some ⟨none, "#ffffff", []⟩, some ⟨none, "#ffffff", []⟩], 1, false⟩
    2 [⟨none, "#111111", []⟩, ⟨none, "#222222", []⟩] { objects := [] }
  exact ⟨hinv, h.1 hinv, h.2.1 rfl, h.2.2.1, h.2.2.2⟩

theorem saveHistory_iterate_flagged (n : Nat) (cv : Canvas)
    (hist : List (Option CanvasContent)) (idx : Int) :
    saveHistory^[n] ⟨cv, hist, idx, true⟩ = ⟨cv, hist, idx, true⟩ :=
  saveHistory_iterate_of_processing rfl n

/-- C4: `handleUndo` is a no-op (state and result unchanged) when the cursor
is at 0 or below (history empty), `handleRedo` is a no-op at the last index;
otherwise, when the target snapshot is present and reconstructs, undo moves
the cursor back exactly one and loads that snapshot, and redo moves it
forward exactly one and loads that snapshot. -/
theorem undo_redo_correct (s : HistState) (n : Nat) :
    (s.historyIndex ≤ 0 → handleUndo n s = (s, Except.ok ()))
    ∧ ((s.history.length : Int) - 1 ≤ s.historyIndex → handleRedo n s = (s, Except.ok ()))
    ∧ (∀ k : CanvasContent, s.isHistoryProcessing = false → 0 < s.historyIndex →
        s.history[(s.historyIndex - 1).toNat]? = some (some k) →
        handleUndo n s
          = ({ s with canvas := s.canvas.loadContent k,
                      historyIndex := s.historyIndex - 1 }, Except.ok ()))
    ∧ (∀ k : CanvasContent, s.isHistoryProcessing = false →
        s.historyIndex < (s.history.length : Int) - 1 →
        s.history[(s.historyIndex + 1).toNat]? = some (some k) →
        handleRedo n s
          = ({ s with canvas := s.canvas.loadContent k,
                      historyIndex := s.historyIndex + 1 }, Except.ok ())) := by
  obtain ⟨cv, hist, idx, flag⟩ := s
  refine ⟨fun hle => ?_, fun hge => ?_, fun k hflag hpos hk => ?_, fun k hflag hlt hk => ?_⟩
  · unfold handleUndo
    rw [if_pos hle]
  · unfold handleRedo
    rw [if_pos hge]
  · simp only at hflag hpos hk
    subst hflag
    unfold handleUndo
    rw [if_neg (show ¬ (idx ≤ 0) by omega)]
    split
    · rename_i heq
      rw [hk] at heq
      simp at heq
    · rename_i heq
      rw [hk] at heq
      simp at heq
    · rename_i k2 heq
      rw [hk] at heq
      simp only [Option.some.injEq] at heq
      subst heq
      rw [saveHistory_iterate_flagged]
  · simp only at hflag hlt hk
    subst hflag
    unfold handleRedo
    rw [if_neg (show ¬ ((hist.length : Int) - 1 ≤ idx) by omega)]
    split
    · rename_i heq
      rw [hk] at heq
      simp at heq
    · rename_i heq
      rw [hk] at heq
      simp at heq
    · rename_i k2 heq
      rw [hk] at heq
      simp only [Option.some.injEq] at heq
      subst heq
      rw [saveHistory_iterate_flagged]

/-- Witness for `undo_redo_correct`: a two-entry history; undo from cursor 1
loads entry 0, redo from cursor 0 loads entry 1, undo at cursor 0 and redo
at cursor 1 are no-ops. -/
theorem undo_redo_correct_witness :
    (handleUndo 3 ⟨{ objects := [] },
        [some ⟨none, "#000000", []⟩, some ⟨none, "#ffffff", []⟩], 0, false⟩
      = (⟨{ objects := [] },
          [some ⟨none, "#000000", []⟩, some ⟨none, "#ffffff", []⟩], 0, false⟩, Except.ok ()))
    ∧ (handleRedo 3 ⟨{ objects := [] },
        [some ⟨none, "#000000", []⟩, some ⟨none, "#ffffff", []⟩], 1, false⟩
      = (⟨{ objects := [] },
          [some ⟨none, "#000000", []⟩, some ⟨none, "#ffffff", []⟩], 1, false⟩, Except.ok ()))
    ∧ (handleUndo 1 ⟨{ objects := [] },
        [some ⟨none, "#000000", []⟩, some ⟨none, "#ffffff", []⟩], 1, false⟩
      = (⟨Canvas.loadContent { objects := [] } ⟨none, "#000000", []⟩,
          [some ⟨none, "#000000", []⟩, some ⟨none, "#ffffff", []⟩], 0, false⟩, Except.ok ()))
    ∧ (handleRedo 1 ⟨{ objects := [] },
        [some ⟨none, "#000000", []⟩, some ⟨none, "#ffffff", []⟩], 0, false⟩
      = (⟨Canvas.loadContent { objects := [] } ⟨none, "#ffffff", []⟩,
          [some ⟨none, "#000000", []⟩, some ⟨none, "#ffffff", []⟩], 1, false⟩, Except.ok ())) := by
  refine ⟨?_, ?_, ?_, ?_⟩
  · exact (undo_redo_correct _ 3).1 (by norm_num)
  · exact (undo_redo_correct _ 3).2.1 (by norm_num)
  · exact (undo_redo_correct _ 1).2.2.1 _ rfl (by norm_num) rfl
  · exact (undo_redo_correct _ 1).2.2.2 _ rfl (by norm_num) rfl

/-- C8: a corrupted snapshot is never partially applied. (i) `handleUndo` on
a history entry that fails to parse propagates the error and leaves the
canvas, the history and the cursor exactly as they were; (ii) a JSON string
that fails to parse makes `importCanvasFromJSON` reject with the scene
untouched; (iii) a snapshot whose entries fail to reconstruct
(`enlivenObjects` rejects) makes `importCanvasFromJSON` rethrow that error
with the scene untouched — object removal only happens after enlivening has
succeeded. -/
theorem corrupt_snapshot_safe (s : HistState) (n : Nat)
    (enliven : List Json → Except String (List FabObj)) (c : Canvas) :
    (s.isHistoryProcessing = false → 0 < s.historyIndex →
      s.history[(s.historyIndex - 1).toNat]? = some none →
      handleUndo n s = (s, Except.error "SyntaxError: JSON.parse failed"))
    ∧ (importCanvasFromJSON enliven c none
        = (c, Except.error "SyntaxError: Unexpected token in JSON"))
    ∧ (∀ (json : Json) (v : Option Json) (xs : List Json) (e : String),
        jsMember json "objects" = Except.ok v → truthyArray v = some xs →
        enliven xs = Except.error e →
        importCanvasFromJSON enliven c (some json) = (c, Except.error e)) := by
  obtain ⟨cv, hist, idx, flag⟩ := s
  refine ⟨fun hflag hpos hk => ?_, rfl, fun json v xs e hv harr he => ?_⟩
  · simp only at hflag hpos hk
    subst hflag
    unfold handleUndo
    rw [if_neg (show ¬ (idx ≤ 0) by omega)]
    split
    · rename_i heq
      rw [hk] at heq
      simp at heq
    · rfl
    · rename_i k2 heq
      rw [hk] at heq
      simp at heq
  · simp only [importCanvasFromJSON, hv, harr, he]

/-- Witness for `corrupt_snapshot_safe`: an unparsable entry at index 0 of
a two-entry history with the cursor at 1; an unparsable JSON string; and an
imported document whose objects fail to enliven. -/
theorem corrupt_snapshot_safe_witness :
    (handleUndo 2 ⟨{ objects := [] }, [none, some ⟨none, "#ffffff", []⟩], 1, false⟩
      = (⟨{ objects := [] }, [none, some ⟨none, "#ffffff", []⟩], 1, false⟩,
          Except.error "SyntaxError: JSON.parse failed"))
    ∧ (importCanvasFromJSON (fun _ => Except.error "bad entry") { objects := [] } none
        = ({ objects := [] }, Except.error "SyntaxError: Unexpected token in JSON"))
    ∧ (importCanvasFromJSON (fun _ => Except.error "bad entry") { objects := [] }
          (some (Json.obj [("objects", Json.arr [])]))
        = ({ objects := [] }, Except.error "bad entry")) := by
  have h := corrupt_snapshot_safe
    ⟨{ objects := [] }, [none, some ⟨none, "#ffffff", []⟩], 1, false⟩ 2
    (fun _ => Except.error "bad entry") { objects := [] }
  exact ⟨h.1 rfl (by norm_num) rfl, h.2.1, h.2.2 _ _ _ _ rfl rfl rfl⟩

/-! ## The export request contract (ExportDrawer / handleExport) -/

/-- The formats offered by the `ExportDrawer`. -/
inductive ExportFormat where
  | PNG
  | JPG
  | PDF
  | SVG
deriving Repr, DecidableEq

/-- `ExportSettings` from `ExportDrawer.tsx`. -/
structure ExportSettings where
  format : ExportFormat
  width : ℚ
  height : ℚ
  dpi : ℚ
  transparentBackground : Bool
  includeProductColor : Bool
deriving Repr, DecidableEq

/-- What one `handleExport` dispatch produces. -/
inductive ExportArtifact where
  | png (r : Raster)
  | pdf (p : PdfDoc)
  | svg (v : SvgDoc)
deriving Repr, DecidableEq

/-- The raster multiplier embedded in an artifact (0 for SVG, which is
vector). -/
def artifactMultiplier : ExportArtifact → ℚ
  | ExportArtifact.png r => r.multiplier
  | ExportArtifact.pdf p => p.image.multiplier
  | ExportArtifact.svg _ => 0

/-- `handleExport` from the current `DesignEditor` (part_007): the
resolution multiplier is computed as `settings.width / editableArea.width`
— the `dpi` field of the settings is never read — and the export is
dispatched to the with/without-background variant per
`transparentBackground`. -/
def handleExport (c : Canvas) (area : EditableArea) (settings : ExportSettings)
    (encodeOk : Bool) : Canvas × Except String ExportArtifact :=
  let resolution := settings.width / area.width
  let useBackground := !settings.transparentBackground
  match settings.format with
  | ExportFormat.PNG =>
    if useBackground then
      let r := exportEditableAreaWithBackgroundAsPNG c area resolution encodeOk
      (r.1, r.2.map ExportArtifact.png)
    else
      let r := exportEditableAreaAsPNG c area resolution encodeOk
      (r.1, r.2.map ExportArtifact.png)
  | ExportFormat.JPG =>
    if useBackground then
      let r := exportEditableAreaWithBackgroundAsPNG c area resolution encodeOk
      (r.1, r.2.map ExportArtifact.png)
    else
      let r := exportEditableAreaAsPNG c area resolution encodeOk
      (r.1, r.2.map ExportArtifact.png)
  | ExportFormat.PDF =>
    if useBackground then
      let r := exportEditableAreaWithBackgroundAsPDF c area resolution encodeOk
      (r.1, r.2.map ExportArtifact.pdf)
    else
      let r := exportEditableAreaAsPDF c area resolution encodeOk
      (r.1, r.2.map ExportArtifact.pdf)
  | ExportFormat.SVG =>
    if useBackground then
      let r := exportEditableAreaWithBackgroundAsSVG c area encodeOk
      (r.1, r.2.map ExportArtifact.svg)
    else
      let r := exportEditableAreaAsSVG c area encodeOk
      (r.1, r.2.map ExportArtifact.svg)

/-- Round to the nearest integer (half up), for stating "pixel dimensions,
rounded". -/
def roundQ (q : ℚ) : ℤ := ⌊q + 1 / 2⌋

/-- C7 (amended): the DPI-to-multiplier conversion `dpi / 96` is used by
`exportEditableAreaAsHighResPNG` (the "300 DPI print ready" PNG path) only;
the drawer-driven `handleExport` derives its multiplier as
`settings.width / area.width` and ignores the requested DPI entirely (its
result is invariant under changing `dpi`). At DPI 300 on a 300x400 area the
high-res PNG path uses multiplier 3.125 = 25/8 and produces a
937.5 x 1250 raster, i.e. 938 x 1250 rounded. -/
theorem dpi_multiplier_conversion (c : Canvas) (area : EditableArea) (dpi : ℚ)
    (ok : Bool) (settings : ExportSettings) (d2 : ℚ) :
    (exportEditableAreaAsHighResPNG c area dpi ok
      = exportEditableAreaAsPNG c area (dpi / 96) ok)
    ∧ ((exportEditableAreaAsHighResPNG c area dpi true).2.map Raster.multiplier
      = Except.ok (dpi / 96))
    ∧ (handleExport c area settings ok = handleExport c area { settings with dpi := d2 } ok)
    ∧ (settings.format ≠ ExportFormat.SVG →
        (handleExport c area settings true).2.map artifactMultiplier
          = Except.ok (settings.width / area.width))
    ∧ ((300 : ℚ) / 96 = 25 / 8)
    ∧ ((exportEditableAreaAsHighResPNG c ⟨0, 0, 300, 400⟩ 300 true).2.map
        (fun r => (r.pixelWidth, r.pixelHeight)) = Except.ok (1875 / 2, 1250))
    ∧ roundQ (1875 / 2) = 938 ∧ roundQ 1250 = 1250 := by
  refine ⟨rfl, rfl, rfl, ?_, by norm_num, ?_, ?_, ?_⟩
  · intro hfmt
    rcases settings with ⟨fmt, w, ht, d, tb, ipc⟩
    cases fmt
    · cases tb <;> rfl
    · cases tb <;> rfl
    · cases tb <;> rfl
    · exact absurd rfl hfmt
  · have hr : (exportEditableAreaAsHighResPNG c ⟨0, 0, 300, 400⟩ 300 true).2.map
        (fun r => (r.pixelWidth, r.pixelHeight))
        = Except.ok (((300 : ℚ) * (300 / 96)), ((400 : ℚ) * (300 / 96))) := rfl
    rw [hr]
    norm_num
  · rw [roundQ, Int.floor_eq_iff]
    norm_num
  · rw [roundQ, Int.floor_eq_iff]
    norm_num

/-- Witness for `dpi_multiplier_conversion` (the format hypothesis
discharged at a concrete PNG request). -/
theorem dpi_multiplier_conversion_witness :
    (ExportSettings.format ⟨ExportFormat.PNG, 600, 750, 300, true, false⟩ ≠ ExportFormat.SVG)
    ∧ (handleExport { objects := [] } ⟨200, 200, 200, 250⟩
          ⟨ExportFormat.PNG, 600, 750, 300, true, false⟩ true).2.map artifactMultiplier
      = Except.ok (ExportSettings.width ⟨ExportFormat.PNG, 600, 750, 300, true, false⟩
          / EditableArea.width ⟨200, 200, 200, 250⟩) :=
  ⟨by simp,
    (dpi_multiplier_conversion { objects := [] } ⟨200, 200, 200, 250⟩ 300 true
      ⟨ExportFormat.PNG, 600, 750, 300, true, false⟩ 72).2.2.2.1 (by simp)⟩

/-- C7 (counterexample to the claim as stated): an export request with
`dpi = 300` and target width 4500 on a 300-wide editable area rasterizes at
multiplier `4500 / 300 = 15`, not at `dpi / 96 = 3.125` — `handleExport`
never reads the DPI. -/
theorem dpi_multiplier_counterexample :
    (handleExport { objects := [] } ⟨0, 0, 300, 400⟩
        ⟨ExportFormat.PDF, 4500, 6000, 300, true, false⟩ true).2.map artifactMultiplier
      = Except.ok 15
    ∧ ExportSettings.dpi ⟨ExportFormat.PDF, 4500, 6000, 300, true, false⟩ / 96 = 25 / 8
    ∧ ((15 : ℚ) ≠ 25 / 8) := by
  refine ⟨?_, by norm_num, by norm_num⟩
  have hr : (handleExport { objects := [] } ⟨0, 0, 300, 400⟩
        ⟨ExportFormat.PDF, 4500, 6000, 300, true, false⟩ true).2.map artifactMultiplier
      = Except.ok ((4500 : ℚ) / 300) := rfl
  rw [hr]
  norm_num
